import Mathlib

/-!
Shallow embedding of the status-dashboard core of the amai-status frontend:
the heartbeat classifier, the resolution cache read path, the capacity
scaling, the uptime computation, the tooltip composition and the
heartbeat-bar window animator, together with theorems settling the
specification claims about them.

Numbers that are JavaScript `number`s in the source are modelled as `ℚ`.
All constants appearing in the relevant code paths (1.25, 1.5, 1.75, 0.5,
1000, thresholds) are either exactly representable in binary floating
point or only compared against rationals far from representability
boundaries, so rational arithmetic is faithful on these paths.
-/

namespace AmaiStatus

/-- The status vocabulary of the classifier:
`"up" | "degraded" | "down" | "none"`. -/
inductive Status where
  | up
  | degraded
  | down
  | none
  deriving DecidableEq, Repr

/-- The heartbeat aggregation interval: `"all" | "hour" | "day" | "week"`. -/
inductive Interval where
  | all
  | hour
  | day
  | week
  deriving DecidableEq, Repr

/-- The string form of an interval, as used in resolution-cache keys. -/
def Interval.key : Interval → String
  | Interval.all => "all"
  | Interval.hour => "hour"
  | Interval.day => "day"
  | Interval.week => "week"

/-- One raw history sample (`StatusRecord` in `types/models`):
`{timestamp, is_up, status_code, response_time}` with `response_time`
in seconds. -/
structure StatusRecord where
  timestamp : String
  is_up : Bool
  status_code : Option Int
  response_time : Option ℚ
  deriving DecidableEq, Repr

/-- A monitor as the heartbeat computations consume it: a unique `name`
(the cache join key), a `url`, and the ordered raw `history`. -/
structure Monitor where
  name : String
  url : String
  history : List StatusRecord
  deriving DecidableEq, Repr

/-- One pre-aggregated heartbeat bucket, as stored in
`state.aggregatedHeartbeat` (`useHeartbeatComputation.ts`, state type). -/
structure BucketNode where
  timestamp : String
  count : ℕ
  avg_response_time : Option ℚ
  issue_percentage : ℚ
  degraded_count : ℕ
  down_count : ℕ
  deriving DecidableEq, Repr

/-- A JavaScript `Date` constructed from a timestamp string; only its
identity matters to the claims, so it is modelled as a wrapper. -/
structure JSDate where
  raw : String
  deriving DecidableEq, Repr

/-- JavaScript truthiness test followed by the threshold comparison,
`r.response_time && r.response_time * 1000 > threshold`:
`null`/`undefined` and `0` are falsy. -/
def rtExceeds (rt : Option ℚ) (thresholdMs : ℚ) : Bool :=
  match rt with
  | Option.none => false
  | Option.some v => decide (v ≠ 0) && decide (v * 1000 > thresholdMs)

/-- The sample classification rule of the raw-history fallback path in
`getHeartbeatData` (`useHeartbeatComputation.ts` lines 40-48 and the
identical copy in `StatusPage.tsx`). -/
def classifySample (degradedThreshold : ℚ) (r : StatusRecord) : Status :=
  if !r.is_up then Status.down
  else if rtExceeds r.response_time degradedThreshold then Status.degraded
  else Status.up

/-- The bucket classification rule of `getHeartbeatData`
(`useHeartbeatComputation.ts` lines 51-65 and the identical copy in
`StatusPage.tsx` lines 562-576). -/
def classifyBucket (interval : Interval) (degradedPercentageThreshold : ℚ)
    (node : BucketNode) : Status :=
  if 0 < node.down_count then Status.down
  else if interval = Interval.all then
    if 0 < node.degraded_count then Status.degraded else Status.up
  else
    if degradedPercentageThreshold < node.issue_percentage then Status.degraded
    else Status.up

/-- The slice of the state consumed by `useHeartbeatComputation`.
The two record lookups (`state.heartbeatIntervals[monitor.name]` and
`state.aggregatedHeartbeat[key]`) are modelled as `Option`-valued
functions; the `|| "all"` and `|| []` defaults are applied at use sites
exactly where the source applies them. -/
structure HBState where
  heartbeatIntervals : String → Option Interval
  aggregatedHeartbeat : String → Option (List BucketNode)
  heartbeatItemCount : ℕ
  degradedThreshold : ℚ
  degradedPercentageThreshold : ℚ

/-- JavaScript `a.slice(-n)` for a natural `n`: the last `min n a.length`
items, except that `slice(-0)` is `slice(0)`, the whole array. -/
def jsSliceLast {α : Type} (l : List α) (n : ℕ) : List α :=
  if n = 0 then l else l.drop (l.length - n)

/-- The resolution-cache key string `` `${monitor.name}:${interval}` ``. -/
def hbKey (m : Monitor) (i : Interval) : String :=
  m.name ++ ":" ++ i.key

/-- `state.heartbeatIntervals[monitor.name] || "all"`. -/
def hbInterval (s : HBState) (m : Monitor) : Interval :=
  (s.heartbeatIntervals m.name).getD Interval.all

/-- `state.aggregatedHeartbeat[key] || []`. -/
def hbNodes (s : HBState) (m : Monitor) : List BucketNode :=
  (s.aggregatedHeartbeat (hbKey m (hbInterval s m))).getD []

/-- `getHeartbeatData` of `useHeartbeatComputation.ts` (lines 30-66; the
copy in `StatusPage.tsx` lines 541-576 is identical). -/
def getHeartbeatData (s : HBState) (m : Monitor) : List Status :=
  let nodes := hbNodes s m
  if nodes.isEmpty then
    if m.history.isEmpty then
      List.replicate s.heartbeatItemCount Status.none
    else
      (jsSliceLast m.history s.heartbeatItemCount).map
        (classifySample s.degradedThreshold)
  else
    nodes.map (classifyBucket (hbInterval s m) s.degradedPercentageThreshold)

/-- `getHeartbeatTimestamps` of `useHeartbeatComputation.ts` (lines 76-95). -/
def getHeartbeatTimestamps (s : HBState) (m : Monitor) : List JSDate :=
  let nodes := hbNodes s m
  if nodes.isEmpty then
    (jsSliceLast m.history s.heartbeatItemCount).map
      (fun r => JSDate.mk r.timestamp)
  else
    nodes.map (fun node => JSDate.mk node.timestamp)

/-- `getHeartbeatResponseTimes` of `useHeartbeatComputation.ts`
(lines 97-116). -/
def getHeartbeatResponseTimes (s : HBState) (m : Monitor) : List (Option ℚ) :=
  let nodes := hbNodes s m
  if nodes.isEmpty then
    (jsSliceLast m.history s.heartbeatItemCount).map
      (fun r => r.response_time)
  else
    nodes.map (fun node => node.avg_response_time)

/-- One entry of the array produced by `getHeartbeatMetadata`. -/
structure MetadataEntry where
  count : ℕ
  avgResponseTime : Option ℚ
  typeLabel : String
  degradedCount : ℕ
  downCount : ℕ
  deriving DecidableEq, Repr

/-- `getHeartbeatMetadata` of `useHeartbeatComputation.ts` (lines 118-223).
`tr` stands for the locale lookup `t(state.language, ·)` (the i18n table
lives outside these sources) and `fmt` for the locale- and
timezone-dependent bucket-label formatting of the node timestamp, both of
which depend on the browser environment; neither affects the claims about
this function beyond the `"time_range.all"` lookup. The fallback branch
slices `history.slice(0, count)`, the head of the history, where the three
sibling getters slice the tail. -/
def getHeartbeatMetadata (tr : String → String)
    (fmt : Interval → String → String) (s : HBState) (m : Monitor) :
    List MetadataEntry :=
  let interval := hbInterval s m
  let nodes := hbNodes s m
  if nodes.isEmpty then
    (m.history.take s.heartbeatItemCount).map
      (fun _ => MetadataEntry.mk 1 Option.none (tr "time_range.all") 0 0)
  else
    nodes.map (fun node =>
      MetadataEntry.mk node.count node.avg_response_time
        (fmt interval node.timestamp) node.degraded_count node.down_count)

/-- JavaScript `Math.round`: round half toward positive infinity.
`Number.prototype.toFixed(0)` picks the larger candidate on ties as well,
so it rounds identically. -/
def jsMathRound (q : ℚ) : ℤ :=
  ⌊q + 1 / 2⌋

/-- `getUptimePercentage` of `StatusPage.tsx` (lines 535-539): `100` for an
empty history, else `Math.round(upCount / total * 100 * 10) / 10`. -/
def getUptimePercentage (m : Monitor) : ℚ :=
  if m.history.isEmpty then 100
  else
    (jsMathRound (((m.history.filter (fun r => r.is_up)).length : ℚ) /
      (m.history.length : ℚ) * 100 * 10) : ℚ) / 10

/-- `getEffectiveMaxItems` of `StatusComponents.tsx` (lines 93-102):
`Math.floor` of `baseMax` divided by 1.25, 1.5 or 1.75. The three
divisors are exactly representable doubles and the exact quotients are
rationals with denominator 5, 3 or 7, so floating-point floor agrees
with rational floor. -/
def getEffectiveMaxItems (baseMax : ℕ) (currentInterval : Interval) : ℕ :=
  match currentInterval with
  | Interval.all => baseMax
  | Interval.hour => (⌊(baseMax : ℚ) / (125 / 100 : ℚ)⌋).toNat
  | Interval.day => (⌊(baseMax : ℚ) / (15 / 10 : ℚ)⌋).toNat
  | Interval.week => (⌊(baseMax : ℚ) / (175 / 100 : ℚ)⌋).toNat

/-- The capacity scaling as the specification words it: `hour` ×0.8,
`day` ×0.667, `week` ×0.571, floored. Stated only to be compared with
`getEffectiveMaxItems`, the function the source defines. -/
def specEffectiveMaxItems (baseMax : ℕ) (currentInterval : Interval) : ℕ :=
  match currentInterval with
  | Interval.all => baseMax
  | Interval.hour => (⌊(baseMax : ℚ) * (8 / 10 : ℚ)⌋).toNat
  | Interval.day => (⌊(baseMax : ℚ) * (667 / 1000 : ℚ)⌋).toNat
  | Interval.week => (⌊(baseMax : ℚ) * (571 / 1000 : ℚ)⌋).toNat

/-- The string form of a status, as it appears in i18n keys. -/
def Status.key : Status → String
  | Status.up => "up"
  | Status.degraded => "degraded"
  | Status.down => "down"
  | Status.none => "none"

/-- `HoveredMonitorInfo` of `types/ui.ts`: the payload delivered by the
heartbeat-bar hover callback and consumed by the tooltip markup. -/
structure HoveredMonitorInfo where
  timestamp : JSDate
  status : Status
  responseTime : Option ℚ
  count : Option ℕ
  avgResponseTime : Option ℚ
  typeLabel : Option String
  degradedCount : Option ℕ
  downCount : Option ℕ
  interval : Option Interval
  deriving DecidableEq, Repr

/-- The tooltip content assembled by the markup of `StatusPage.tsx`
(lines 833-915), one field per rendered block. -/
structure TooltipData where
  timeText : String
  statusLabel : String
  showIssues : Bool
  degradedLine : Option ℕ
  downLine : Option ℕ
  pingText : String
  sampleCountLine : Option ℕ
  deriving DecidableEq, Repr

/-- `getStatusLabel` of `StatusPage.tsx` (lines 740-748): `"No Data"` for
`none`, otherwise the locale lookup of `status_indicator.<status>`. -/
def getStatusLabel (tr : String → String) (status : Status) : String :=
  if status = Status.none then "No Data"
  else tr ("status_indicator." ++ status.key)

/-- The ping line of the tooltip (`StatusPage.tsx` lines 890-906):
`avg ping` from `avgResponseTime` when that is neither null nor
undefined, else `ping` from `responseTime`, each as seconds × 1000
rendered through `toFixed(0)`; else `ping: N/A`. -/
def pingTextOf (tr : String → String) (info : HoveredMonitorInfo) : String :=
  match info.avgResponseTime with
  | Option.some avg =>
      tr "heartbeat.avg_ping" ++ ": " ++ toString (jsMathRound (avg * 1000)) ++ "ms"
  | Option.none =>
      match info.responseTime with
      | Option.some rt =>
          tr "heartbeat.ping" ++ ": " ++ toString (jsMathRound (rt * 1000)) ++ "ms"
      | Option.none => tr "heartbeat.ping" ++ ": N/A"

/-- The issue-breakdown guard of the tooltip (`StatusPage.tsx`
lines 867-872): interval present, not `all`, and a positive degraded or
down count. -/
def showIssuesOf (info : HoveredMonitorInfo) : Bool :=
  match info.interval with
  | Option.none => false
  | Option.some i =>
      decide (i ≠ Interval.all) &&
        ((info.degradedCount.getD 0 > 0) || (info.downCount.getD 0 > 0))

/-- The tooltip composition of `StatusPage.tsx`: the block is rendered
only under the guard `state.hoveredMonitorIndex !== null` (line 833), so a
null hover yields no tooltip. `tr` is the locale lookup
`t(state.language, ·)` and `fmtTime` the locale `Date` formatting, both
browser-environment-dependent and abstracted as parameters. -/
def composeTooltip (tr : String → String) (fmtTime : JSDate → String)
    (info : Option HoveredMonitorInfo) : Option TooltipData :=
  match info with
  | Option.none => Option.none
  | Option.some it =>
      Option.some
        { timeText :=
            match it.typeLabel with
            | Option.some l => if l = "" then fmtTime it.timestamp else l
            | Option.none => fmtTime it.timestamp
          statusLabel := getStatusLabel tr it.status
          showIssues := showIssuesOf it
          degradedLine :=
            if showIssuesOf it ∧ 0 < it.degradedCount.getD 0 then it.degradedCount
            else Option.none
          downLine :=
            if showIssuesOf it ∧ 0 < it.downCount.getD 0 then it.downCount
            else Option.none
          pingText := pingTextOf tr it
          sampleCountLine :=
            if 1 < it.count.getD 0 then it.count else Option.none }

/-- Modelled from the spec: the English entries of the i18n table
(`src/lib/utils/i18n` is not among the sources); the specification names
the labels "avg ping", "ping" and the generic "all time" label. -/
def englishLabels : String → String := fun key =>
  if key = "heartbeat.avg_ping" then "avg ping"
  else if key = "heartbeat.ping" then "ping"
  else if key = "time_range.all" then "all time"
  else key

/-- One rendered node of the heartbeat bar, as built by
`HeartbeatBarComponent` (`StatusComponents.tsx`): each field mirrors the
object literal of the `slicedData.map` calls, with `Option.none` standing
for JavaScript `null`/`undefined` (and, for `timestamp`, for the
`|| new Date()` now-fallback). -/
structure DisplayItem where
  status : Status
  id : String
  timestamp : Option JSDate
  responseTime : Option ℚ
  count : Option ℕ
  avgResponseTime : Option ℚ
  typeLabel : Option String
  degradedCount : Option ℕ
  downCount : Option ℕ
  deriving DecidableEq, Repr

/-- The props of `HeartbeatBarComponent` that its state transitions read;
`responseTimes` and `metadata` are optional props. -/
structure BarProps where
  data : List Status
  timestamps : List JSDate
  responseTimes : Option (List (Option ℚ))
  metadata : Option (List MetadataEntry)
  maxItems : ℕ
  interval : Interval
  deriving DecidableEq, Repr

/-- JavaScript `x || null` on a nullable number: `0` collapses to null. -/
def jsOrNull (x : Option ℚ) : Option ℚ :=
  match x with
  | Option.some v => if v = 0 then Option.none else Option.some v
  | Option.none => Option.none

/-- The `slicedData.map((status, i) => ...)` window construction shared by
the initial state (ids `item-${i}`, `absoluteIds := false`) and both
effects (ids `item-${startIdx + i}`, `absoluteIds := true`) of
`HeartbeatBarComponent`. -/
def buildDisplayItems (absoluteIds : Bool) (p : BarProps) : List DisplayItem :=
  let cap := getEffectiveMaxItems p.maxItems p.interval
  let sliced := jsSliceLast p.data cap
  let startIdx := p.data.length - cap
  sliced.mapIdx (fun i status =>
    let idx := startIdx + i
    let entry := p.metadata.bind (fun l => l.get? idx)
    { status := status
      id := "item-" ++ toString (if absoluteIds then idx else i)
      timestamp := p.timestamps.get? idx
      responseTime := jsOrNull ((p.responseTimes.bind (fun l => l.get? idx)).join)
      count := entry.map (fun e => e.count)
      avgResponseTime := entry.bind (fun e => e.avgResponseTime)
      typeLabel := entry.map (fun e => e.typeLabel)
      degradedCount := entry.map (fun e => e.degradedCount)
      downCount := entry.map (fun e => e.downCount) })

/-- The state of one `HeartbeatBarComponent` instance: the displayed
window, the slide offset (px), the measured node width (px), the last
observed series length (`lastDataLenRef`) and the number of outstanding
400 ms trim callbacks (`transitionTimeoutRef`; the ref stores at most one
handle, the count records how many scheduled callbacks have neither fired
nor been cancelled). -/
structure BarState where
  displayItems : List DisplayItem
  translateX : ℚ
  nodeWidth : ℚ
  lastDataLen : ℕ
  pendingTrims : ℕ
  deriving DecidableEq, Repr

/-- The `useState` initialisers of `HeartbeatBarComponent`. -/
def initBarState (p : BarProps) : BarState :=
  { displayItems := buildDisplayItems false p
    translateX := 0
    nodeWidth := 0
    lastDataLen := p.data.length
    pendingTrims := 0 }

/-- One props-change pass of `HeartbeatBarComponent`: the reset effect
(lines 140-163, `currentLen <= lastLen`: replace the window, zero the
offset, leave `lastDataLenRef` and any pending timeout untouched) and the
growth effect (lines 237-288, `currentLen > lastLen`: replace the window
with the last-capacity slice, `clearTimeout` any pending trim, then — in
the animation frame — set the offset to `-nodeWidth` when a width is
known and schedule one 400 ms trim; update `lastDataLenRef`). The two
guards are complementary, so exactly one branch acts per pass; the
animation-frame callback is folded into the pass, the core being
single-threaded. -/
def receiveProps (s : BarState) (p : BarProps) : BarState :=
  if p.data.length ≤ s.lastDataLen then
    { s with
      displayItems := buildDisplayItems true p
      translateX := 0 }
  else
    { displayItems := buildDisplayItems true p
      translateX := if 0 < s.nodeWidth then -s.nodeWidth else s.translateX
      nodeWidth := s.nodeWidth
      lastDataLen := p.data.length
      pendingTrims := 1 }

/-- The scheduled 400 ms callback firing: drop the head item
(`prev.slice(1)`) and reset the offset; one fewer callback outstanding. -/
def fireTrim (s : BarState) : BarState :=
  { s with
    displayItems := s.displayItems.drop 1
    translateX := 0
    pendingTrims := s.pendingTrims - 1 }

/-- `calculateNodeWidth`: a DOM measurement updates `nodeWidth` to the
first node's offset width plus the fixed 2 px gap. -/
def measureWidth (s : BarState) (w : ℚ) : BarState :=
  { s with nodeWidth := w }

/-- The event-level transition relation of one heartbeat bar: a props
change, the firing of an outstanding trim callback, or a width
measurement (offset width ≥ 0 plus the 2 px gap, hence positive). -/
inductive BarStep : BarState → BarState → Prop where
  | props (s : BarState) (p : BarProps) : BarStep s (receiveProps s p)
  | trim (s : BarState) (h : 0 < s.pendingTrims) : BarStep s (fireTrim s)
  | width (s : BarState) (w : ℚ) (hw : 0 < w) : BarStep s (measureWidth s w)

/-- The states a heartbeat bar mounted with props `p0` can reach. -/
inductive BarReachable (p0 : BarProps) : BarState → Prop where
  | init : BarReachable p0 (initBarState p0)
  | step (s t : BarState) (hs : BarReachable p0 s) (hst : BarStep s t) :
      BarReachable p0 t

/-! Concrete fixtures used to instantiate the theorems below. -/

/-- A fast healthy sample: up, 0.1 s response. -/
def histUpFast : StatusRecord :=
  ⟨"2025-01-01T00:00:00Z", true, Option.some 200, Option.some (1 / 10)⟩

/-- A failed sample. -/
def histDown : StatusRecord :=
  ⟨"2025-01-01T00:01:00Z", false, Option.none, Option.none⟩

/-- A slow healthy sample: up, 0.7 s response (700 ms, above a 500 ms
threshold). -/
def histUpSlow : StatusRecord :=
  ⟨"2025-01-01T00:02:00Z", true, Option.some 200, Option.some (7 / 10)⟩

/-- A monitor with history `[up, up, down, up]`. -/
def uptimeMonitor : Monitor :=
  ⟨"web", "http://example.test", [histUpFast, histUpFast, histDown, histUpFast]⟩

/-- A state with nothing cached, display item count 10, thresholds
500 ms / 10 %. -/
def emptyCacheState : HBState :=
  ⟨fun _ => Option.none, fun _ => Option.none, 10, 500, 10⟩

/-- A monitor with no history at all. -/
def emptyMonitor : Monitor := ⟨"web", "http://example.test", []⟩

/-- A state with nothing cached and display item count 2. -/
def fallbackState : HBState :=
  ⟨fun _ => Option.none, fun _ => Option.none, 2, 500, 10⟩

/-- A monitor whose three-sample history ends in a down and a slow-up
sample. -/
def fallbackMonitor : Monitor :=
  ⟨"web", "http://example.test", [histUpFast, histDown, histUpSlow]⟩

/-- A bucket with no down samples, two degraded samples and a 5 % issue
percentage. -/
def slowBucket : BucketNode :=
  ⟨"2025-01-01T00:00:00Z", 4, Option.some (3 / 10), 5, 2, 0⟩

/-- A hovered item carrying `avg_response_time = 0.25` s and no
`response_time`. -/
def hoverInfoFix : HoveredMonitorInfo :=
  ⟨⟨"2025-01-01T00:00:00Z"⟩, Status.up, Option.none, Option.some 4,
    Option.some (1 / 4), Option.none, Option.some 0, Option.some 0,
    Option.some Interval.all⟩

/-- A bar that last observed a series of length 3, with a measured node
width of 2 px and no pending trim. -/
def cexBarState1 : BarState := ⟨[], 0, 2, 3, 0⟩

/-- Props whose series grew to 4 items (growth by exactly one) with base
capacity 3 at interval `all`. -/
def cexGrowth1 : BarProps :=
  ⟨[Status.up, Status.up, Status.up, Status.up], [], Option.none,
    Option.none, 3, Interval.all⟩

/-- A bar that last observed a series of length 1, node width 2 px. -/
def cexBarState2 : BarState := ⟨[], 0, 2, 1, 0⟩

/-- Props whose series grew to 3 items (growth by two at once). -/
def cexGrowth2 : BarProps :=
  ⟨[Status.up, Status.down, Status.up], [], Option.none, Option.none, 5,
    Interval.all⟩

/-- A bar that last observed a series of length 5. -/
def shrinkState : BarState := ⟨[], 0, 2, 5, 0⟩

/-- Props whose series shrank to a single item. -/
def shrinkProps : BarProps :=
  ⟨[Status.up], [JSDate.mk "t"], Option.none, Option.none, 90, Interval.all⟩

/-- Mount-time props: a single-item series. -/
def mountProps : BarProps :=
  ⟨[Status.up], [], Option.none, Option.none, 90, Interval.all⟩

/-- The mount-time series grown by one trailing item. -/
def grownProps : BarProps :=
  ⟨[Status.up, Status.up], [], Option.none, Option.none, 90, Interval.all⟩

/-! Helper lemmas shared by the claim theorems. -/

theorem map_mapIdx {α β γ : Type} (l : List α) (f : ℕ → α → β) (g : β → γ) :
    (l.mapIdx f).map g = l.mapIdx (fun i a => g (f i a)) := by
  induction l generalizing f with
  | nil => simp
  | cons a t ih => simp [List.mapIdx_cons, ih]

theorem mapIdx_ignore {α β : Type} (l : List α) (f : α → β) :
    l.mapIdx (fun _ a => f a) = l.map f := by
  induction l with
  | nil => simp
  | cons a t ih => simp [List.mapIdx_cons, ih]

theorem jsSliceLast_length {α : Type} (l : List α) {n : ℕ} (hn : 0 < n) :
    (jsSliceLast l n).length = min n l.length := by
  unfold jsSliceLast
  rw [if_neg (Nat.pos_iff_ne_zero.mp hn), List.length_drop]
  omega

theorem buildDisplayItems_length (absoluteIds : Bool) (p : BarProps) :
    (buildDisplayItems absoluteIds p).length =
      (jsSliceLast p.data (getEffectiveMaxItems p.maxItems p.interval)).length := by
  unfold buildDisplayItems
  simp [List.length_mapIdx]

theorem buildDisplayItems_statuses (absoluteIds : Bool) (p : BarProps) :
    (buildDisplayItems absoluteIds p).map DisplayItem.status =
      jsSliceLast p.data (getEffectiveMaxItems p.maxItems p.interval) := by
  unfold buildDisplayItems
  rw [map_mapIdx]
  simp [mapIdx_ignore]

theorem jsMathRound_eq (q : ℚ) (n : ℤ) (d : ℕ) (h : q + 1 / 2 = (n : ℚ) / (d : ℚ)) :
    jsMathRound q = n / d := by
  unfold jsMathRound
  rw [h, Rat.floor_intCast_div_natCast]

theorem toNat_floor_natCast_div_natCast (a b : ℕ) :
    (⌊(a : ℚ) / (b : ℚ)⌋).toNat = a / b := by
  rw [show ((a : ℚ)) = ((a : ℤ) : ℚ) by norm_cast,
    Rat.floor_intCast_div_natCast,
    show ((a : ℤ) / (b : ℤ)) = ((a / b : ℕ) : ℤ) by rw [Int.natCast_div]]
  exact Int.toNat_natCast _

/-! The claim theorems. -/

/-- C1: the bucket classifier returns `down` exactly when `down_count > 0`;
with no down samples it returns `degraded` iff `degraded_count > 0` at
interval `all` and iff `issue_percentage > degraded_percentage_threshold`
at the other intervals, and `up` otherwise. In particular a bucket with
`down_count = 0` and `degraded_count = 2` is `degraded` at `all`, and one
with `issue_percentage = 5` is `up` at `day` under threshold 10. -/
theorem C1_bucket_classifier (node : BucketNode) (i : Interval) (pct : ℚ) :
    (classifyBucket i pct node = Status.down ↔ 0 < node.down_count)
    ∧ (node.down_count = 0 → i = Interval.all →
        (classifyBucket i pct node = Status.degraded ↔ 0 < node.degraded_count))
    ∧ (node.down_count = 0 → i ≠ Interval.all →
        (classifyBucket i pct node = Status.degraded ↔ pct < node.issue_percentage))
    ∧ (classifyBucket i pct node ≠ Status.down →
        classifyBucket i pct node ≠ Status.degraded →
        classifyBucket i pct node = Status.up)
    ∧ (node.down_count = 0 → node.degraded_count = 2 →
        classifyBucket Interval.all pct node = Status.degraded)
    ∧ (node.down_count = 0 → node.issue_percentage = 5 →
        classifyBucket Interval.day 10 node = Status.up) := by
  refine ⟨?_, ?_, ?_, ?_, ?_, ?_⟩
  · unfold classifyBucket
    split_ifs <;> simp_all
  · intro hdc hi
    subst hi
    unfold classifyBucket
    rw [if_neg (by omega), if_pos rfl]
    split_ifs <;> simp_all
  · intro hdc hi
    unfold classifyBucket
    rw [if_neg (by omega), if_neg hi]
    split_ifs <;> simp_all
  · unfold classifyBucket
    split_ifs <;> simp_all
  · intro hdc hdg
    unfold classifyBucket
    rw [if_neg (by omega), if_pos rfl, if_pos (by omega)]
  · intro hdc hip
    unfold classifyBucket
    rw [if_neg (by omega), if_neg (by simp), if_neg (by rw [hip]; norm_num)]

/-- C1 witness: the two concrete bucket classifications, obtained from the
classifier characterisation. -/
theorem C1_bucket_classifier_witness :
    classifyBucket Interval.all 10 slowBucket = Status.degraded
    ∧ classifyBucket Interval.day 10 slowBucket = Status.up :=
  ⟨(C1_bucket_classifier slowBucket Interval.all 10).2.2.2.2.1 rfl rfl,
   (C1_bucket_classifier slowBucket Interval.day 10).2.2.2.2.2 rfl rfl⟩

theorem getEffectiveMaxItems_hour (b : ℕ) :
    getEffectiveMaxItems b Interval.hour = 4 * b / 5 := by
  unfold getEffectiveMaxItems
  rw [show (b : ℚ) / (125 / 100 : ℚ) = ((4 * b : ℕ) : ℚ) / ((5 : ℕ) : ℚ) by
    push_cast; ring]
  exact toNat_floor_natCast_div_natCast _ _

theorem getEffectiveMaxItems_day (b : ℕ) :
    getEffectiveMaxItems b Interval.day = 2 * b / 3 := by
  unfold getEffectiveMaxItems
  rw [show (b : ℚ) / (15 / 10 : ℚ) = ((2 * b : ℕ) : ℚ) / ((3 : ℕ) : ℚ) by
    push_cast; ring]
  exact toNat_floor_natCast_div_natCast _ _

theorem getEffectiveMaxItems_week (b : ℕ) :
    getEffectiveMaxItems b Interval.week = 4 * b / 7 := by
  unfold getEffectiveMaxItems
  rw [show (b : ℚ) / (175 / 100 : ℚ) = ((4 * b : ℕ) : ℚ) / ((7 : ℕ) : ℚ) by
    push_cast; ring]
  exact toNat_floor_natCast_div_natCast _ _

theorem specEffectiveMaxItems_hour (b : ℕ) :
    specEffectiveMaxItems b Interval.hour = 4 * b / 5 := by
  unfold specEffectiveMaxItems
  rw [show (b : ℚ) * (8 / 10 : ℚ) = ((4 * b : ℕ) : ℚ) / ((5 : ℕ) : ℚ) by
    push_cast; ring]
  exact toNat_floor_natCast_div_natCast _ _

theorem specEffectiveMaxItems_week (b : ℕ) :
    specEffectiveMaxItems b Interval.week = 571 * b / 1000 := by
  unfold specEffectiveMaxItems
  rw [show (b : ℚ) * (571 / 1000 : ℚ) = ((571 * b : ℕ) : ℚ) / ((1000 : ℕ) : ℚ) by
    push_cast; ring]
  exact toNat_floor_natCast_div_natCast _ _

/-- C6 counterexample: at base capacity 7 and interval `week` the code
yields `floor(7 / 1.75) = 4`, while the claimed formula
`floor(7 × 0.571)` yields 3. -/
theorem C6_counterexample :
    getEffectiveMaxItems 7 Interval.week = 4
    ∧ specEffectiveMaxItems 7 Interval.week = 3
    ∧ getEffectiveMaxItems 7 Interval.week ≠ specEffectiveMaxItems 7 Interval.week := by
  rw [getEffectiveMaxItems_week, specEffectiveMaxItems_week]
  decide

/-- C6 (amended): the effective capacity is `b` at `all`,
`floor(b / 1.25) = floor(b × 0.8)` at `hour`, `floor(b / 1.5)` at `day`
and `floor(b / 1.75)` at `week`; base capacity 100 at `week` yields 57. -/
theorem C6_capacity_scaling (b : ℕ) :
    getEffectiveMaxItems b Interval.all = b
    ∧ getEffectiveMaxItems b Interval.hour = 4 * b / 5
    ∧ getEffectiveMaxItems b Interval.day = 2 * b / 3
    ∧ getEffectiveMaxItems b Interval.week = 4 * b / 7
    ∧ getEffectiveMaxItems b Interval.hour = specEffectiveMaxItems b Interval.hour
    ∧ getEffectiveMaxItems 100 Interval.week = 57 :=
  ⟨rfl, getEffectiveMaxItems_hour b, getEffectiveMaxItems_day b,
    getEffectiveMaxItems_week b,
    (getEffectiveMaxItems_hour b).trans (specEffectiveMaxItems_hour b).symm,
    by rw [getEffectiveMaxItems_week 100]⟩

/-- C7: the uptime percentage is `round(up_count / total * 1000) / 10` for
a non-empty history, `100` for an empty one, and `75` for the history
`[up, up, down, up]`. -/
theorem C7_uptime_percentage (m : Monitor) (h : m.history ≠ []) :
    getUptimePercentage m =
      (jsMathRound (((m.history.filter (fun r => r.is_up)).length : ℚ) /
        (m.history.length : ℚ) * 1000) : ℚ) / 10
    ∧ getUptimePercentage emptyMonitor = 100
    ∧ getUptimePercentage uptimeMonitor = 75 := by
  refine ⟨?_, rfl, ?_⟩
  · unfold getUptimePercentage
    rw [if_neg (by simpa using h)]
    congr 2
    ring_nf
  · have hc : (uptimeMonitor.history.filter (fun r => r.is_up)).length = 3 := by
      decide
    have hl : uptimeMonitor.history.length = 4 := by decide
    unfold getUptimePercentage
    rw [if_neg (by decide), hc, hl,
      jsMathRound_eq _ 1501 2 (by push_cast; norm_num)]
    norm_num

/-- C7 witness: the characterisation applied to the four-sample history. -/
theorem C7_uptime_percentage_witness :
    getUptimePercentage uptimeMonitor = 75 :=
  (C7_uptime_percentage uptimeMonitor (by decide)).2.2

/-- C10: with no cached bucket sequence and an empty history, the status
array is exactly `heartbeatItemCount` copies of `none`. -/
theorem C10_empty_placeholder (s : HBState) (m : Monitor)
    (hn : hbNodes s m = []) (hh : m.history = []) :
    getHeartbeatData s m = List.replicate s.heartbeatItemCount Status.none
    ∧ (getHeartbeatData s m).length = s.heartbeatItemCount
    ∧ ∀ x ∈ getHeartbeatData s m, x = Status.none := by
  have h1 : getHeartbeatData s m =
      List.replicate s.heartbeatItemCount Status.none := by
    unfold getHeartbeatData
    simp [hn, hh]
  refine ⟨h1, ?_, ?_⟩ <;> simp [h1]

/-- C4 counterexample: with an uncached key and an empty history the
status array has the placeholder length 10 while the other three arrays
are empty, so the four display arrays are not all the same length. -/
theorem C4_counterexample :
    (getHeartbeatData emptyCacheState emptyMonitor).length = 10
    ∧ (getHeartbeatTimestamps emptyCacheState emptyMonitor).length = 0
    ∧ (getHeartbeatResponseTimes emptyCacheState emptyMonitor).length = 0
    ∧ (getHeartbeatMetadata englishLabels (fun _ ts => ts) emptyCacheState
        emptyMonitor).length = 0 :=
  ⟨rfl, rfl, rfl, rfl⟩

/-- C4 (amended): the four display arrays are index-aligned and have the
same length whenever the item count is positive and a bucket sequence is
cached or the raw history is non-empty; in the remaining case (nothing
cached and empty history) the status array alone holds the
`heartbeatItemCount` placeholder entries while the other three are
empty. -/
theorem C4_aligned_lengths (tr : String → String)
    (fmt : Interval → String → String) (s : HBState) (m : Monitor)
    (hN : 0 < s.heartbeatItemCount)
    (h : hbNodes s m ≠ [] ∨ m.history ≠ []) :
    (getHeartbeatData s m).length = (getHeartbeatTimestamps s m).length
    ∧ (getHeartbeatData s m).length = (getHeartbeatResponseTimes s m).length
    ∧ (getHeartbeatData s m).length = (getHeartbeatMetadata tr fmt s m).length := by
  by_cases hn : hbNodes s m = []
  · have hh : m.history ≠ [] := by
      rcases h with h | h
      · exact absurd hn h
      · exact h
    have hne : m.history.isEmpty = false := by
      cases hmh : m.history with
      | nil => exact absurd hmh hh
      | cons a t => rfl
    simp [getHeartbeatData, getHeartbeatTimestamps, getHeartbeatResponseTimes,
      getHeartbeatMetadata, hn, hne, jsSliceLast_length _ hN]
  · have hne : (hbNodes s m).isEmpty = false := by
      cases hnm : hbNodes s m with
      | nil => exact absurd hnm hn
      | cons a t => rfl
    simp [getHeartbeatData, getHeartbeatTimestamps, getHeartbeatResponseTimes,
      getHeartbeatMetadata, hne]

/-- C4 witness: the alignment property at the three-sample fallback
fixture. -/
theorem C4_aligned_lengths_witness :
    (getHeartbeatData fallbackState fallbackMonitor).length
        = (getHeartbeatTimestamps fallbackState fallbackMonitor).length
    ∧ (getHeartbeatData fallbackState fallbackMonitor).length
        = (getHeartbeatResponseTimes fallbackState fallbackMonitor).length
    ∧ (getHeartbeatData fallbackState fallbackMonitor).length
        = (getHeartbeatMetadata englishLabels (fun _ ts => ts) fallbackState
            fallbackMonitor).length :=
  C4_aligned_lengths englishLabels (fun _ ts => ts) fallbackState
    fallbackMonitor (by decide) (Or.inr (by decide))

/-- C5: with nothing cached and a non-empty history, the status series is
the raw history trimmed to the last `heartbeatItemCount` samples and
classified by the sample rule, and every metadata entry of that fallback
carries `count = 1` and the generic `time_range.all` label. -/
theorem C5_raw_fallback (tr : String → String)
    (fmt : Interval → String → String) (s : HBState) (m : Monitor)
    (hn : hbNodes s m = []) (hh : m.history ≠ [])
    (hN : 0 < s.heartbeatItemCount) :
    getHeartbeatData s m
      = (m.history.drop (m.history.length - s.heartbeatItemCount)).map
          (classifySample s.degradedThreshold)
    ∧ ∀ e ∈ getHeartbeatMetadata tr fmt s m,
        e.count = 1 ∧ e.typeLabel = tr "time_range.all" := by
  have hne : m.history.isEmpty = false := by
    cases hmh : m.history with
    | nil => exact absurd hmh hh
    | cons a t => rfl
  constructor
  · simp [getHeartbeatData, hn, hne, jsSliceLast,
      Nat.pos_iff_ne_zero.mp hN]
  · intro e he
    simp [getHeartbeatMetadata, hn, List.mem_map] at he
    obtain ⟨a, ha, rfl⟩ := he
    exact ⟨rfl, rfl⟩

/-- C5 witness: the fallback path on a three-sample history at item
count 2. -/
theorem C5_raw_fallback_witness :
    getHeartbeatData fallbackState fallbackMonitor
      = (fallbackMonitor.history.drop (fallbackMonitor.history.length - 2)).map
          (classifySample 500)
    ∧ ∀ e ∈ getHeartbeatMetadata englishLabels (fun _ ts => ts) fallbackState
          fallbackMonitor,
        e.count = 1 ∧ e.typeLabel = englishLabels "time_range.all" :=
  C5_raw_fallback englishLabels (fun _ ts => ts) fallbackState
    fallbackMonitor rfl (by decide) (by decide)

/-- C8: tooltip composition yields nothing for a null hover; for a hovered
item the ping line prefers `avg_response_time` under the "avg ping" label
over `response_time` under the "ping" label, renders milliseconds rounded
to an integer, and says "ping: N/A" when neither is present; an item with
`avg_response_time = 0.25` and no `response_time` reads "avg ping:
250ms". -/
theorem C8_tooltip_compose (fmtTime : JSDate → String)
    (info : HoveredMonitorInfo) (a r : ℚ) :
    composeTooltip englishLabels fmtTime Option.none = Option.none
    ∧ (info.avgResponseTime = Option.some a →
        (composeTooltip englishLabels fmtTime (Option.some info)).map
            TooltipData.pingText
          = Option.some ("avg ping: " ++ toString (jsMathRound (a * 1000)) ++ "ms"))
    ∧ (info.avgResponseTime = Option.none → info.responseTime = Option.some r →
        (composeTooltip englishLabels fmtTime (Option.some info)).map
            TooltipData.pingText
          = Option.some ("ping: " ++ toString (jsMathRound (r * 1000)) ++ "ms"))
    ∧ (info.avgResponseTime = Option.none → info.responseTime = Option.none →
        (composeTooltip englishLabels fmtTime (Option.some info)).map
            TooltipData.pingText
          = Option.some "ping: N/A")
    ∧ (info.avgResponseTime = Option.some (1 / 4) →
        (composeTooltip englishLabels fmtTime (Option.some info)).map
            TooltipData.pingText
          = Option.some "avg ping: 250ms") := by
  refine ⟨rfl, ?_, ?_, ?_, ?_⟩
  · intro hA
    have hp : pingTextOf englishLabels info
        = "avg ping: " ++ toString (jsMathRound (a * 1000)) ++ "ms" := by
      unfold pingTextOf
      rw [hA]
      rfl
    simp [composeTooltip, hp]
  · intro hA hR
    have hp : pingTextOf englishLabels info
        = "ping: " ++ toString (jsMathRound (r * 1000)) ++ "ms" := by
      unfold pingTextOf
      rw [hA, hR]
      rfl
    simp [composeTooltip, hp]
  · intro hA hR
    have hp : pingTextOf englishLabels info = "ping: N/A" := by
      unfold pingTextOf
      rw [hA, hR]
      rfl
    simp [composeTooltip, hp]
  · intro hA
    have hv : jsMathRound ((1 / 4 : ℚ) * 1000) = 250 :=
      (jsMathRound_eq _ 501 2 (by norm_num)).trans (by decide)
    have hp : pingTextOf englishLabels info = "avg ping: 250ms" := by
      unfold pingTextOf
      rw [hA]
      show englishLabels "heartbeat.avg_ping" ++ ": " ++
          toString (jsMathRound ((1 / 4 : ℚ) * 1000)) ++ "ms" = "avg ping: 250ms"
      rw [hv]
      rfl
    simp [composeTooltip, hp]

/-- C8 witness: the composition applied to the concrete hovered item with
`avg_response_time = 0.25` s. -/
theorem C8_tooltip_compose_witness :
    (composeTooltip englishLabels (fun d => d.raw)
        (Option.some hoverInfoFix)).map TooltipData.pingText
      = Option.some "avg ping: 250ms" :=
  (C8_tooltip_compose (fun d => d.raw) hoverInfoFix (1 / 4) 0).2.2.2.2 rfl

/-- C10 witness: the placeholder fill at item count 10. -/
theorem C10_empty_placeholder_witness :
    getHeartbeatData emptyCacheState emptyMonitor =
      List.replicate 10 Status.none :=
  (C10_empty_placeholder emptyCacheState emptyMonitor rfl rfl).1

/-- C2 counterexample: a growth by two items (series length 3 against a
last observed length of 1) does not replace the window without animation:
the offset is driven to `-nodeWidth = -2`, one trim callback is
scheduled, and once it fires the window holds the last-capacity items
minus the dropped head, not the last-capacity items. -/
theorem C2_counterexample :
    cexGrowth2.data.length = cexBarState2.lastDataLen + 2
    ∧ (receiveProps cexBarState2 cexGrowth2).translateX = -2
    ∧ (receiveProps cexBarState2 cexGrowth2).pendingTrims = 1
    ∧ (fireTrim (receiveProps cexBarState2 cexGrowth2)).displayItems.map
        DisplayItem.status = [Status.down, Status.up]
    ∧ jsSliceLast cexGrowth2.data
        (getEffectiveMaxItems cexGrowth2.maxItems cexGrowth2.interval)
        = [Status.up, Status.down, Status.up] :=
  ⟨rfl, rfl, rfl, rfl, rfl⟩

/-- C2 (amended): a series change that is not growth (shrink, reset or
unchanged length) replaces the window outright — last-capacity content,
offset 0, no animation scheduled; growth, including growth by more than
one item at once, instead takes the slide-then-trim path: one trim is
scheduled and after it fires the window is the last-capacity slice minus
its head. -/
theorem C2_window_replace (s : BarState) (p : BarProps) :
    (p.data.length ≤ s.lastDataLen →
      receiveProps s p
        = { s with displayItems := buildDisplayItems true p, translateX := 0 })
    ∧ (buildDisplayItems true p).map DisplayItem.status
        = jsSliceLast p.data (getEffectiveMaxItems p.maxItems p.interval)
    ∧ (s.lastDataLen + 1 < p.data.length →
        (receiveProps s p).pendingTrims = 1
        ∧ (0 < s.nodeWidth → (receiveProps s p).translateX = -s.nodeWidth)
        ∧ (fireTrim (receiveProps s p)).displayItems
            = (buildDisplayItems true p).drop 1
        ∧ (fireTrim (receiveProps s p)).translateX = 0) := by
  refine ⟨?_, buildDisplayItems_statuses true p, ?_⟩
  · intro h
    unfold receiveProps
    rw [if_pos h]
  · intro h
    unfold receiveProps
    rw [if_neg (by omega)]
    refine ⟨rfl, ?_, rfl, rfl⟩
    intro hw
    simp only [if_pos hw]

/-- C2 witness: the replace path on a shrink from 5 to 1 items, and the
scheduled trim on a growth by two. -/
theorem C2_window_replace_witness :
    receiveProps shrinkState shrinkProps
      = { shrinkState with
          displayItems := buildDisplayItems true shrinkProps
          translateX := 0 }
    ∧ (receiveProps cexBarState2 cexGrowth2).pendingTrims = 1 :=
  ⟨(C2_window_replace shrinkState shrinkProps).1 (by decide),
   ((C2_window_replace cexBarState2 cexGrowth2).2.2 (by decide)).1⟩

/-- C3 counterexample: a growth by exactly one item at capacity 3 ends its
slide-then-trim cycle with a window of length 2 — one less than the
capacity the claim states — because the code first replaces the window
with the full last-capacity slice and then still drops the head. -/
theorem C3_counterexample :
    cexGrowth1.data.length = cexBarState1.lastDataLen + 1
    ∧ getEffectiveMaxItems cexGrowth1.maxItems cexGrowth1.interval = 3
    ∧ (fireTrim (receiveProps cexBarState1 cexGrowth1)).displayItems.length = 2
    ∧ (fireTrim (receiveProps cexBarState1 cexGrowth1)).translateX = 0 :=
  ⟨rfl, rfl, rfl, rfl⟩

/-- C3 (amended): growth by exactly one trailing item schedules exactly
one slide-then-trim cycle — window replaced by the last-capacity slice,
offset driven to `-nodeWidth` when a width is measured, one pending trim —
and at the end of the cycle the offset is 0, no trim is outstanding, and
the window length is `min capacity (series length) - 1`, one less than the
capacity when the series is at least capacity long. -/
theorem C3_growth_one (s : BarState) (p : BarProps)
    (hlen : p.data.length = s.lastDataLen + 1)
    (hcap : 0 < getEffectiveMaxItems p.maxItems p.interval) :
    (receiveProps s p).pendingTrims = 1
    ∧ (receiveProps s p).displayItems = buildDisplayItems true p
    ∧ (0 < s.nodeWidth → (receiveProps s p).translateX = -s.nodeWidth)
    ∧ (receiveProps s p).lastDataLen = p.data.length
    ∧ (fireTrim (receiveProps s p)).pendingTrims = 0
    ∧ (fireTrim (receiveProps s p)).translateX = 0
    ∧ (fireTrim (receiveProps s p)).displayItems.length
        = min (getEffectiveMaxItems p.maxItems p.interval) p.data.length - 1 := by
  have hgt : ¬ p.data.length ≤ s.lastDataLen := by omega
  unfold receiveProps
  rw [if_neg hgt]
  refine ⟨rfl, rfl, ?_, rfl, rfl, rfl, ?_⟩
  · intro hw
    simp only [if_pos hw]
  · show ((buildDisplayItems true p).drop 1).length
        = min (getEffectiveMaxItems p.maxItems p.interval) p.data.length - 1
    rw [List.length_drop, buildDisplayItems_length,
      jsSliceLast_length _ hcap]

/-- C3 witness: the one-item growth cycle at capacity 3 on a series of
length 4. -/
theorem C3_growth_one_witness :
    (receiveProps cexBarState1 cexGrowth1).pendingTrims = 1
    ∧ (fireTrim (receiveProps cexBarState1 cexGrowth1)).displayItems.length
        = min (getEffectiveMaxItems cexGrowth1.maxItems cexGrowth1.interval)
            cexGrowth1.data.length - 1 :=
  ⟨(C3_growth_one cexBarState1 cexGrowth1 rfl (by decide)).1,
   (C3_growth_one cexBarState1 cexGrowth1 rfl (by decide)).2.2.2.2.2.2⟩

/-- C9: in every state a heartbeat bar can reach, at most one trim
callback is outstanding; and a growth event — in particular one arriving
while a trim is pending — cancels the pending trim before scheduling the
new one, leaving exactly one outstanding and setting the offset to
`-nodeWidth` absolutely rather than compounding it. -/
theorem C9_single_pending (p0 : BarProps) (s : BarState)
    (hs : BarReachable p0 s) :
    s.pendingTrims ≤ 1
    ∧ ∀ p : BarProps, s.lastDataLen < p.data.length →
        (receiveProps s p).pendingTrims = 1
        ∧ (0 < s.nodeWidth → (receiveProps s p).translateX = -s.nodeWidth) := by
  constructor
  · induction hs with
    | init => simp [initBarState]
    | step u v hu huv ih =>
      cases huv with
      | props p =>
        unfold receiveProps
        split_ifs <;> simp_all
      | trim h =>
        simp only [fireTrim]
        omega
      | width w hw =>
        simpa [measureWidth] using ih
  · intro p hp
    constructor
    · unfold receiveProps
      rw [if_neg (by omega)]
    · intro hw
      unfold receiveProps
      rw [if_neg (by omega)]
      simp only [if_pos hw]

/-- C9 witness: the invariant at the mount state, and the single scheduled
trim after a growth event from it. -/
theorem C9_single_pending_witness :
    (initBarState mountProps).pendingTrims ≤ 1
    ∧ (receiveProps (initBarState mountProps) grownProps).pendingTrims = 1 :=
  ⟨(C9_single_pending mountProps (initBarState mountProps)
      BarReachable.init).1,
   ((C9_single_pending mountProps (initBarState mountProps)
      BarReachable.init).2 grownProps (by decide)).1⟩

end AmaiStatus
